import Mathlib

/-!
Shallow embedding of the OSINET_MAX bot core: the sliding-window rate
limiter (`bot_handlers.py :: _check_rate_limit` with the configuration of
`config.py`), the phone/vehicle validators (`utils.py`), and the tracing /
vehicle-lookup services (`tracing_services.py`).

Conventions of the embedding:
- `datetime` timestamps are rationals (seconds); `timedelta(seconds=w)`
  subtraction becomes subtraction of the rational `w`.
- Python dicts used as ordered string-keyed records become association
  lists `List (String × String)`; `dict.get(k, d)` becomes
  `(List.lookup k m).getD d`.
- The emoji prefixes decorating the keys of result dicts in the source
  (for example the key rendered as a pin emoji before "Number") are
  dropped: keys here are the plain label part ("Number", "Country", ...).
- The rate limiter's per-process dict `self.rate_limiter` becomes a total
  function `String → List ℚ` with default `[]`, which matches the lazy
  `if user_key not in ...: ... = []` initialisation observationally.
- Python character classes `[A-Z]` / `\d` are ASCII; they are embedded as
  `Char.isUpper` / `Char.isDigit`, and `str.upper()` as `Char.toUpper`
  (the ASCII restriction of Python's casing, which is all the vehicle
  patterns can observe).
-/

namespace OSINET

/-! ## Rate limiter (`bot_handlers.py`, `_check_rate_limit`) -/

/-- Rate-limiter configuration: `Config.RATE_LIMIT_WINDOW` (seconds) and
`Config.RATE_LIMIT_REQUESTS` from `config.py`. -/
structure RLConfig where
  window : ℚ
  maxRequests : ℕ
deriving DecidableEq

/-- Defaults from `config.py`: `RATE_LIMIT_REQUESTS = 5`,
`RATE_LIMIT_WINDOW = 60` (the `os.getenv` fallbacks). -/
def defaultRLConfig : RLConfig := ⟨60, 5⟩

/-- The `self.rate_limiter` dict: user key → list of request timestamps. -/
def RLState : Type := String → List ℚ

/-- The empty rate-limiter map (fresh `BotHandlers` instance). -/
def emptyRL : RLState := fun _ => []

/-- `_check_rate_limit` of `bot_handlers.py`: prune the user's entries to
those strictly after `now - window`, store the pruned list, deny when the
pruned count reaches `maxRequests`, otherwise append `now` and allow.
Returns the boolean together with the updated map. -/
def _check_rate_limit (cfg : RLConfig) (st : RLState) (user_key : String)
    (now : ℚ) : Bool × RLState :=
  let cutoff_time : ℚ := now - cfg.window
  let pruned : List ℚ := (st user_key).filter (fun t => cutoff_time < t)
  if cfg.maxRequests ≤ pruned.length then
    (false, Function.update st user_key pruned)
  else
    (true, Function.update st user_key (pruned ++ [now]))

/-- Run a sequence of admission checks for a single identity, collecting
the returned booleans and the final state. -/
def admitTimes (cfg : RLConfig) (st : RLState) (u : String) :
    List ℚ → List Bool × RLState
  | [] => ([], st)
  | t :: ts =>
    let r := _check_rate_limit cfg st u t
    let rest := admitTimes cfg r.2 u ts
    (r.1 :: rest.1, rest.2)

/-- Run a sequence of admission checks for possibly different identities
(pairs of user key and clock value), returning the final map. -/
def runCalls (cfg : RLConfig) (st : RLState) :
    List (String × ℚ) → RLState
  | [] => st
  | c :: cs => runCalls cfg (_check_rate_limit cfg st c.1 c.2).2 cs

/-! ## Python string primitives

The embedding uses structurally recursive character-list versions of the
Python string operations (`startswith`, `endswith`, `replace`, `int`), so
that every definition evaluates by kernel reduction on concrete input. -/

/-- Python `s.startswith(p)`. -/
def pyStartsWith (s p : String) : Bool :=
  p.toList.isPrefixOf s.toList

/-- Python `s.endswith(p)`. -/
def pyEndsWith (s p : String) : Bool :=
  p.toList.isSuffixOf s.toList

/-- Replace non-overlapping occurrences of `pat` left to right, with
explicit fuel (one unit per consumed character). -/
def replaceL (rep pat : List Char) : ℕ → List Char → List Char
  | 0, s => s
  | _ + 1, [] => []
  | fuel + 1, c :: rest =>
    if pat.isPrefixOf (c :: rest) then
      rep ++ replaceL rep pat fuel ((c :: rest).drop pat.length)
    else c :: replaceL rep pat fuel rest

/-- Python `s.replace(pat, rep)`: replace all non-overlapping occurrences
of `pat`, scanning left to right. (All call sites in the source use a
non-empty `pat`; the empty-pattern case is returned unchanged.) -/
def pyReplace (s pat rep : String) : String :=
  if pat.toList.isEmpty then s
  else ⟨replaceL rep.toList pat.toList s.length s.toList⟩

/-- Python `int(s)` on the digit-only strings produced by the vehicle
grammar (no sign or whitespace handling is needed there). -/
def pyInt (s : String) : Option ℕ :=
  if s.toList ≠ [] ∧ s.toList.all Char.isDigit then
    some (s.toList.foldl (fun n c => 10 * n + (c.toNat - '0'.toNat)) 0)
  else none

/-! ## Phone validator (`utils.py`, `validate_phone_number`) -/

/-- `re.sub(r'[^\d+]', '', s)`: keep the digits and every `+` sign
(Python's character class keeps a `+` wherever it occurs, not only a
leading one). Used both by the validator and by `trace_phone_number`. -/
def cleanPhone (s : String) : String :=
  ⟨s.toList.filter (fun c => c.isDigit || c = '+')⟩

/-- Regex `^\+\d{10,15}$`: a `+` followed by 10 to 15 digits. -/
def isIntlFormat (cs : List Char) : Bool :=
  match cs with
  | c :: rest =>
    decide (c = '+') && rest.all (fun c => c.isDigit) &&
      decide (10 ≤ rest.length) && decide (rest.length ≤ 15)
  | [] => false

/-- Regex `^\d{n}$`: exactly `n` digits. -/
def isDigits (n : ℕ) (cs : List Char) : Bool :=
  cs.all (fun c => c.isDigit) && decide (cs.length = n)

/-- Regex `^\+91\d{10}$`. -/
def isIndiaFormat (cs : List Char) : Bool :=
  match cs with
  | a :: b :: c :: rest =>
    decide (a = '+') && decide (b = '9') && decide (c = '1') &&
      isDigits 10 rest
  | _ => false

/-- Regex `^\+1\d{10}$`. -/
def isUSFormat (cs : List Char) : Bool :=
  match cs with
  | a :: b :: rest => decide (a = '+') && decide (b = '1') && isDigits 10 rest
  | _ => false

/-- `validate_phone_number` of `utils.py`: empty input is rejected
outright; otherwise the input is cleaned by `cleanPhone` and accepted when
any of the five regex patterns matches the cleaned string. -/
def validate_phone_number (phone_number : String) : Bool :=
  if phone_number.toList.isEmpty then false
  else
    let cleaned := (cleanPhone phone_number).toList
    isIntlFormat cleaned || isDigits 10 cleaned || isDigits 11 cleaned ||
      isIndiaFormat cleaned || isUSFormat cleaned

/-- The normalisation described by the spec's words ("stripping all
characters except digits and a leading `+`"): keep a `+` only when it is
the first character of the input, and otherwise keep only digits. Written
for the refinement comparison of the validator against the spec; the
source's `cleanPhone` keeps every `+`. -/
def specNormalizePhone (s : String) : String :=
  (if pyStartsWith s "+" then "+" else "") ++ ⟨s.toList.filter Char.isDigit⟩

/-- The spec's acceptance condition on the normalised string: any of the
five listed patterns matches. -/
def specPhoneAccept (s : String) : Bool :=
  let cs := (specNormalizePhone s).toList
  isIntlFormat cs || isDigits 10 cs || isDigits 11 cs ||
    isIndiaFormat cs || isUSFormat cs

/-! ## Tracing strategies (`tracing_services.py`) -/

/-- A labelled result mapping (a Python dict used as an ordered record). -/
abbrev TraceDict : Type := List (String × String)

/-- `_get_indian_region`: strip every occurrence of `"+91"` and every
space, then bucket by the first digit when at least 10 characters
remain. -/
def _get_indian_region (phone_number : String) : String :=
  let number := pyReplace (pyReplace phone_number "+91" "") " " ""
  if 10 ≤ number.length then
    match number.toList with
    | '9' :: _ => "Northern/Western India"
    | '8' :: _ => "Eastern/Southern India"
    | '7' :: _ => "Central/Western India"
    | '6' :: _ => "Eastern India"
    | _ => "Unknown Region"
  else "Unknown Region"

/-- `_trace_truecaller_info`: the purely local heuristic country/network
strategy. Always returns a dict holding at least the number, a country
and a network type; Indian numbers also get a region bucket. -/
def _trace_truecaller_info (phone_number : String) : TraceDict :=
  if pyStartsWith phone_number "+91" ||
      (decide (phone_number.length = 10) &&
        (pyStartsWith phone_number "6" || pyStartsWith phone_number "7" ||
         pyStartsWith phone_number "8" || pyStartsWith phone_number "9")) then
    [("Number", phone_number), ("Country", "India"),
     ("Region", _get_indian_region phone_number),
     ("Network Type", "Mobile")]
  else if pyStartsWith phone_number "+1" then
    [("Number", phone_number), ("Country", "United States/Canada"),
     ("Network Type", "Mobile/Landline")]
  else if pyStartsWith phone_number "+44" then
    [("Number", phone_number), ("Country", "United Kingdom"),
     ("Network Type", "Mobile/Landline")]
  else
    [("Number", phone_number), ("Country", "Unknown"),
     ("Network Type", "Unknown")]

/-- `_trace_basic_info`: the purely local basic-format strategy. -/
def _trace_basic_info (phone_number : String) : TraceDict :=
  [("Number", phone_number),
   ("Format", if pyStartsWith phone_number "+" then "International" else "Local"),
   ("Validity",
     if 10 ≤ (pyReplace (pyReplace phone_number "+" "") " " "").length then
       "Valid Length"
     else "Invalid Length"),
   ("Type",
     if pyEndsWith phone_number "0000" || pyEndsWith phone_number "1111" ||
         pyEndsWith phone_number "2222" then
       "Possibly Fake/Test Number"
     else "Regular Number")]

/-- What one strategy call can do, seen from `trace_phone_number`'s loop:
raise an exception, return a non-dict value (the status-code error
string), or return a dict. The remote `_trace_calltracer` strategy's
behaviour depends on the network, so the resolver below is parametrised
by its outcome; the two local strategies are the total functions above. -/
inductive StratOutcome where
  | raises : StratOutcome
  | retStr : String → StratOutcome
  | retDict : TraceDict → StratOutcome
deriving DecidableEq

/-- A strategy outcome is usable when it returned a non-empty dict
(`isinstance(result, dict) and result`); `usable` extracts that dict. -/
def usable : StratOutcome → Option TraceDict
  | .raises => none
  | .retStr _ => none
  | .retDict d => if d.isEmpty then none else some d

/-- Result of the whole resolution: a dict, or the terminal
"Unable to trace" failure string (`Exhausted`). -/
inductive TraceResult where
  | result : TraceDict → TraceResult
  | exhausted : TraceResult
deriving DecidableEq

/-- The strategy loop of `trace_phone_number`: try each outcome in order,
return the first usable dict, fall through on exceptions and non-dict or
empty results, and give up with `exhausted` after the last one. -/
def firstUsable : List StratOutcome → TraceResult
  | [] => .exhausted
  | o :: os =>
    match usable o with
    | some d => .result d
    | none => firstUsable os

/-- `trace_phone_number`: clean the number with `cleanPhone`, then run the
fixed method list `[_trace_calltracer, _trace_truecaller_info,
_trace_basic_info]` through the loop. `remote` is the outcome of the
network-dependent `_trace_calltracer` call on the cleaned number. -/
def trace_phone_number (remote : StratOutcome) (phone_number : String) :
    TraceResult :=
  let cleaned := cleanPhone phone_number
  firstUsable
    [remote,
     .retDict (_trace_truecaller_info cleaned),
     .retDict (_trace_basic_info cleaned)]

/-! ## Vehicle parsing and lookup (`tracing_services.py`, `utils.py`) -/

/-- The `state_codes` table of `TracingService.__init__`: two-letter
region code → state name. -/
def state_codes : List (String × String) :=
  [("AP", "Andhra Pradesh"),
  ("AR", "Arunachal Pradesh"),
  ("AS", "Assam"),
  ("BR", "Bihar"),
  ("CG", "Chhattisgarh"),
  ("GA", "Goa"),
  ("GJ", "Gujarat"),
  ("HR", "Haryana"),
  ("HP", "Himachal Pradesh"),
  ("JH", "Jharkhand"),
  ("KA", "Karnataka"),
  ("KL", "Kerala"),
  ("MP", "Madhya Pradesh"),
  ("MH", "Maharashtra"),
  ("MN", "Manipur"),
  ("ML", "Meghalaya"),
  ("MZ", "Mizoram"),
  ("NL", "Nagaland"),
  ("OD", "Odisha"),
  ("PB", "Punjab"),
  ("RJ", "Rajasthan"),
  ("SK", "Sikkim"),
  ("TN", "Tamil Nadu"),
  ("TG", "Telangana"),
  ("TR", "Tripura"),
  ("UK", "Uttarakhand"),
  ("UP", "Uttar Pradesh"),
  ("WB", "West Bengal"),
  ("AN", "Andaman & Nicobar Islands"),
  ("CH", "Chandigarh"),
  ("DH", "Dadra & Nagar Haveli"),
  ("DD", "Daman & Diu"),
  ("DL", "Delhi"),
  ("LD", "Lakshadweep"),
  ("PY", "Puducherry")]

/-- The `rto_offices` table of `TracingService.__init__`: office (RTO)
code → office name. -/
def rto_offices : List (String × String) :=
  [("MH01", "Mumbai Central RTO"),
  ("MH02", "Mumbai West RTO"),
  ("MH03", "Mumbai East RTO"),
  ("MH04", "Mumbai South RTO"),
  ("MH05", "Thane RTO"),
  ("MH06", "Raigad RTO"),
  ("MH07", "Ratnagiri RTO"),
  ("MH08", "Kolhapur RTO"),
  ("MH09", "Pune RTO"),
  ("MH10", "Sangli RTO"),
  ("MH11", "Solapur RTO"),
  ("MH12", "Aurangabad RTO"),
  ("MH13", "Nashik RTO"),
  ("MH14", "Dhule RTO"),
  ("MH15", "Jalgaon RTO"),
  ("MH16", "Nagpur Central RTO"),
  ("MH17", "Nagpur East RTO"),
  ("MH18", "Bhandara RTO"),
  ("MH19", "Amravati RTO"),
  ("MH20", "Buldhana RTO"),
  ("MH21", "Akola RTO"),
  ("MH22", "Washim RTO"),
  ("MH23", "Yavatmal RTO"),
  ("MH31", "Chandrapur RTO"),
  ("MH43", "Pune East RTO"),
  ("MH46", "Satara RTO"),
  ("MH47", "Nanded RTO"),
  ("DL01", "Delhi Central RTO"),
  ("DL02", "Delhi West RTO"),
  ("DL03", "Delhi East RTO"),
  ("DL04", "Delhi South RTO"),
  ("DL05", "Delhi North RTO"),
  ("DL06", "Rohini RTO"),
  ("DL07", "New Delhi RTO"),
  ("DL08", "Dwarka RTO"),
  ("DL09", "Outer Delhi RTO"),
  ("DL10", "Shahdara RTO"),
  ("DL11", "South West Delhi RTO"),
  ("DL12", "North West Delhi RTO"),
  ("DL13", "North East Delhi RTO"),
  ("DL14", "South East Delhi RTO"),
  ("KA01", "Bangalore Central RTO"),
  ("KA02", "Bangalore North RTO"),
  ("KA03", "Bangalore South RTO"),
  ("KA04", "Bangalore East RTO"),
  ("KA05", "Bangalore West RTO"),
  ("KA06", "Tumkur RTO"),
  ("KA07", "Mysore RTO"),
  ("KA08", "Bellary RTO"),
  ("KA09", "Mangalore RTO"),
  ("KA10", "Hubli RTO"),
  ("KA11", "Gulbarga RTO"),
  ("KA12", "Belgaum RTO"),
  ("KA51", "BBMP East RTO"),
  ("KA52", "BBMP West RTO"),
  ("KA53", "BBMP North RTO"),
  ("TN01", "Chennai Central RTO"),
  ("TN02", "Chennai North RTO"),
  ("TN03", "Chennai South RTO"),
  ("TN04", "Chennai West RTO"),
  ("TN05", "Chennai East RTO"),
  ("TN06", "Thiruvallur RTO"),
  ("TN07", "Kanchipuram RTO"),
  ("TN08", "Vellore RTO"),
  ("TN09", "Tiruvannamalai RTO"),
  ("TN10", "Villupuram RTO"),
  ("TN11", "Cuddalore RTO"),
  ("TN12", "Chidambaram RTO"),
  ("UP01", "Agra RTO"),
  ("UP02", "Aligarh RTO"),
  ("UP03", "Allahabad RTO"),
  ("UP04", "Ambedkar Nagar RTO"),
  ("UP05", "Amethi RTO"),
  ("UP06", "Amroha RTO"),
  ("UP07", "Auraiya RTO"),
  ("UP08", "Azamgarh RTO"),
  ("UP09", "Baghpat RTO"),
  ("UP10", "Bahraich RTO"),
  ("UP11", "Ballia RTO"),
  ("UP12", "Balrampur RTO"),
  ("UP13", "Banda RTO"),
  ("UP14", "Barabanki RTO"),
  ("UP15", "Bareilly RTO"),
  ("UP16", "Basti RTO"),
  ("UP17", "Bhadohi RTO"),
  ("UP18", "Bijnor RTO"),
  ("UP19", "Budaun RTO"),
  ("UP20", "Bulandshahr RTO"),
  ("UP21", "Chandauli RTO"),
  ("UP22", "Chitrakoot RTO"),
  ("UP23", "Deoria RTO"),
  ("UP24", "Etah RTO"),
  ("UP25", "Etawah RTO"),
  ("UP26", "Faizabad RTO"),
  ("UP27", "Farrukhabad RTO"),
  ("UP28", "Fatehpur RTO"),
  ("UP29", "Firozabad RTO"),
  ("UP30", "Gautam Buddha Nagar RTO"),
  ("UP31", "Ghaziabad RTO"),
  ("UP32", "Ghazipur RTO"),
  ("UP33", "Gonda RTO"),
  ("UP34", "Gorakhpur RTO"),
  ("UP35", "Hamirpur RTO"),
  ("UP36", "Hapur RTO"),
  ("UP37", "Hardoi RTO"),
  ("UP38", "Hathras RTO"),
  ("UP39", "Jalaun RTO"),
  ("UP40", "Jaunpur RTO"),
  ("UP41", "Jhansi RTO"),
  ("UP42", "Kannauj RTO"),
  ("UP43", "Kanpur Dehat RTO"),
  ("UP44", "Kanpur Nagar RTO"),
  ("UP45", "Kasganj RTO"),
  ("UP46", "Kaushambi RTO"),
  ("UP47", "Kheri RTO"),
  ("UP48", "Kushinagar RTO"),
  ("UP49", "Lalitpur RTO"),
  ("UP50", "Lucknow RTO"),
  ("UP51", "Maharajganj RTO"),
  ("UP52", "Mahoba RTO"),
  ("UP53", "Mainpuri RTO"),
  ("UP54", "Mathura RTO"),
  ("UP55", "Mau RTO"),
  ("UP56", "Meerut RTO"),
  ("UP57", "Mirzapur RTO"),
  ("UP58", "Moradabad RTO"),
  ("UP59", "Muzaffarnagar RTO"),
  ("UP60", "Pilibhit RTO"),
  ("UP61", "Pratapgarh RTO"),
  ("UP62", "Raebareli RTO"),
  ("UP63", "Rampur RTO"),
  ("UP64", "Saharanpur RTO"),
  ("UP65", "Sambhal RTO"),
  ("UP66", "Sant Kabir Nagar RTO"),
  ("UP67", "Shahjahanpur RTO"),
  ("UP68", "Shamli RTO"),
  ("UP69", "Shravasti RTO"),
  ("UP70", "Siddharthnagar RTO"),
  ("UP71", "Sitapur RTO"),
  ("UP72", "Sonbhadra RTO"),
  ("UP73", "Sultanpur RTO"),
  ("UP74", "Unnao RTO"),
  ("UP75", "Varanasi RTO"),
  ("WB01", "Kolkata Central RTO"),
  ("WB02", "Kolkata South RTO"),
  ("WB03", "Kolkata North RTO"),
  ("WB04", "Howrah RTO"),
  ("WB05", "Hooghly RTO"),
  ("WB06", "24 Parganas North RTO"),
  ("WB07", "24 Parganas South RTO"),
  ("WB08", "Nadia RTO"),
  ("WB09", "Murshidabad RTO"),
  ("WB10", "Birbhum RTO"),
  ("WB11", "Burdwan East RTO"),
  ("WB12", "Burdwan West RTO"),
  ("WB13", "Malda RTO"),
  ("WB14", "Dinajpur North RTO"),
  ("WB15", "Dinajpur South RTO"),
  ("WB16", "Jalpaiguri RTO"),
  ("WB17", "Darjeeling RTO"),
  ("WB18", "Cooch Behar RTO"),
  ("WB19", "Alipurduar RTO"),
  ("WB20", "Kalimpong RTO"),
  ("WB21", "Bankura RTO"),
  ("WB22", "Purulia RTO"),
  ("WB23", "Paschim Medinipur RTO"),
  ("WB24", "Purba Medinipur RTO"),
  ("WB25", "Jhargram RTO")]


/-- Python `str.zfill n` on the digit strings produced by the grammar:
left-pad with `'0'` up to width `n`. -/
def zfill (n : ℕ) (s : String) : String :=
  ⟨List.replicate (n - s.length) '0'⟩ ++ s

/-- Split a string into its leading runs
`uppercase-run, digit-run, uppercase-run, digit-run`; succeed only when
nothing of the string remains after the fourth run. All three vehicle
regexes (and both validator regexes) are anchored alternations of the
shape `[A-Z]{2} \d{a,b} [A-Z]{1,2} \d{c,d} $` over the disjoint classes
`[A-Z]` and `\d`, so a regex match exists exactly when this maximal-run
decomposition exists with the right run lengths: inside a run the regex
group can end nowhere but at the run's end, because the next required
class would not match. -/
def splitRuns (cs : List Char) :
    Option (List Char × List Char × List Char × List Char) :=
  let p1 := cs.span (fun c => c.isUpper)
  let p2 := p1.2.span (fun c => c.isDigit)
  let p3 := p2.2.span (fun c => c.isUpper)
  let p4 := p3.2.span (fun c => c.isDigit)
  if p4.2.isEmpty then some (p1.1, p2.1, p3.1, p4.1) else none

/-- The four capture groups of a vehicle regex match. -/
structure VehicleGroups where
  state_code : String
  district_code : String
  series : String
  number : String
deriving DecidableEq, Repr

/-- Common shape of all the vehicle patterns: 2 letters, then a digit
group of length `dLo`–`dHi`, then 1–2 letters, then a digit group of
length `sLo`–`sHi`, then end of string. -/
def matchVehiclePattern (dLo dHi sLo sHi : ℕ) (s : String) :
    Option VehicleGroups :=
  (splitRuns s.toList).bind fun q =>
    if q.1.length = 2 ∧ (dLo ≤ q.2.1.length ∧ q.2.1.length ≤ dHi) ∧
        (1 ≤ q.2.2.1.length ∧ q.2.2.1.length ≤ 2) ∧
        (sLo ≤ q.2.2.2.length ∧ q.2.2.2.length ≤ sHi) then
      some ⟨⟨q.1⟩, ⟨q.2.1⟩, ⟨q.2.2.1⟩, ⟨q.2.2.2⟩⟩
    else none

/-- Regex 1 of `_parse_vehicle_number`:
`^([A-Z]{2})(\d{2})([A-Z]{1,2})(\d{4})$` (standard format). -/
def matchP1 (s : String) : Option VehicleGroups :=
  matchVehiclePattern 2 2 4 4 s

/-- Regex 2 of `_parse_vehicle_number`:
`^([A-Z]{2})(\d{2})([A-Z]{1,2})(\d{1,4})$` (variable digit format). -/
def matchP2 (s : String) : Option VehicleGroups :=
  matchVehiclePattern 2 2 1 4 s

/-- Regex 3 of `_parse_vehicle_number`:
`^([A-Z]{2})(\d{1,2})([A-Z]{1,2})(\d{1,4})$` (single digit district). -/
def matchP3 (s : String) : Option VehicleGroups :=
  matchVehiclePattern 1 2 1 4 s

/-- The dict built by `_parse_vehicle_number` from a match: the original
string, the four groups, and the derived RTO code
`state_code + district_code.zfill(2)`. -/
structure ParsedVehicle where
  original : String
  state_code : String
  district_code : String
  series : String
  number : String
  rto_code : String
deriving DecidableEq, Repr

/-- Build the parsed dict from the capture groups of a match. -/
def mkParsed (vehicle_number : String) (g : VehicleGroups) : ParsedVehicle :=
  ⟨vehicle_number, g.state_code, g.district_code, g.series, g.number,
   g.state_code ++ zfill 2 g.district_code⟩

/-- `_parse_vehicle_number`: try the three patterns in their listed
order; the first regex that matches provides the groups. -/
def _parse_vehicle_number (vehicle_number : String) : Option ParsedVehicle :=
  match matchP1 vehicle_number with
  | some g => some (mkParsed vehicle_number g)
  | none =>
    match matchP2 vehicle_number with
    | some g => some (mkParsed vehicle_number g)
    | none =>
      match matchP3 vehicle_number with
      | some g => some (mkParsed vehicle_number g)
      | none => none

/-- `_get_vehicle_type`: classify by the series group. -/
def _get_vehicle_type (series : String) : Option String :=
  if series.length = 1 then some "Private Vehicle (Old Format)"
  else if series.length = 2 then
    match series.toList with
    | c :: _ =>
      if c = 'A' ∨ c = 'B' ∨ c = 'C' ∨ c = 'D' then some "Private Vehicle"
      else if c = 'E' ∨ c = 'F' ∨ c = 'G' ∨ c = 'H' then some "Taxi/Commercial"
      else if c = 'P' ∨ c = 'Q' ∨ c = 'R' ∨ c = 'S' then some "Private Vehicle"
      else if c = 'T' ∨ c = 'U' ∨ c = 'V' ∨ c = 'W' then some "Two Wheeler"
      else if c = 'X' ∨ c = 'Y' ∨ c = 'Z' then some "Special Vehicle"
      else none
    | [] => none
  else none

/-- `_estimate_registration_year`: bucket the serial number. -/
def _estimate_registration_year (parsed_info : ParsedVehicle) :
    Option String :=
  match pyInt parsed_info.number with
  | some number =>
    if number < 1000 then some "Before 2005 (Estimated)"
    else if number < 5000 then some "2005-2010 (Estimated)"
    else if number < 9000 then some "2010-2015 (Estimated)"
    else some "After 2015 (Estimated)"
  | none => none

/-- `_get_vehicle_details`: join the parsed dict against the reference
tables (with the `"Unknown State"` / `"Unknown RTO"` defaults of
`dict.get`) and append the optional derived fields. -/
def _get_vehicle_details (parsed_info : ParsedVehicle) : TraceDict :=
  [("Registration Number", parsed_info.original),
   ("State", (state_codes.lookup parsed_info.state_code).getD "Unknown State"),
   ("RTO Office", (rto_offices.lookup parsed_info.rto_code).getD "Unknown RTO"),
   ("RTO Code", parsed_info.rto_code),
   ("Series", parsed_info.series),
   ("Number", parsed_info.number),
   ("Registration Region",
     parsed_info.state_code ++ "-" ++ parsed_info.district_code)]
  ++ (match _get_vehicle_type parsed_info.series with
      | some t => [("Vehicle Type", t)]
      | none => [])
  ++ (match _estimate_registration_year parsed_info with
      | some y => [("Estimated Registration Year", y)]
      | none => [])

/-- The normalisation shared by `validate_vehicle_number` and
`lookup_vehicle_info`: upper-case, then drop spaces and hyphens. -/
def normalizeVehicle (s : String) : String :=
  ⟨(s.toList.map Char.toUpper).filter (fun c => ¬(c = ' ' ∨ c = '-'))⟩

/-- Result of `lookup_vehicle_info`: the details dict, or the
user-facing "Invalid vehicle registration format" string (`NotFound`). -/
inductive VehicleLookup where
  | info : TraceDict → VehicleLookup
  | invalidFormat : VehicleLookup
deriving DecidableEq

/-- `lookup_vehicle_info`: normalise, parse, and either report the
invalid-format failure or build the details. -/
def lookup_vehicle_info (vehicle_number : String) : VehicleLookup :=
  let v := normalizeVehicle vehicle_number
  match _parse_vehicle_number v with
  | none => .invalidFormat
  | some parsed_info => .info (_get_vehicle_details parsed_info)

/-- `validate_vehicle_number` of `utils.py`: empty input is rejected;
otherwise normalise and accept when either validator regex
(`^[A-Z]{2}\d{2}[A-Z]{1,2}\d{1,4}$` or `^[A-Z]{2}\d{1,2}[A-Z]{1,2}\d{1,4}$`)
matches. These are the same anchored run-shaped patterns, so they are
embedded through the shared matcher. -/
def validate_vehicle_number (vehicle_number : String) : Bool :=
  if vehicle_number.toList.isEmpty then false
  else
    let cleaned := normalizeVehicle vehicle_number
    (matchVehiclePattern 2 2 1 4 cleaned).isSome ||
      (matchVehiclePattern 1 2 1 4 cleaned).isSome

/-! ## Helper lemmas: rate limiter -/

theorem check_rl_eq (cfg : RLConfig) (st : RLState) (u : String) (now : ℚ) :
    _check_rate_limit cfg st u now =
      if cfg.maxRequests ≤
          ((st u).filter (fun t => now - cfg.window < t)).length then
        (false,
          Function.update st u ((st u).filter (fun t => now - cfg.window < t)))
      else
        (true,
          Function.update st u
            ((st u).filter (fun t => now - cfg.window < t) ++ [now])) := rfl

theorem check_rl_fst (cfg : RLConfig) (st : RLState) (u : String) (now : ℚ) :
    (_check_rate_limit cfg st u now).1 = true ↔
      ((st u).filter (fun t => now - cfg.window < t)).length <
        cfg.maxRequests := by
  rw [check_rl_eq]
  by_cases h : cfg.maxRequests ≤
      ((st u).filter (fun t => now - cfg.window < t)).length
  · simp only [if_pos h]
    constructor
    · intro hc; exact absurd hc (by simp)
    · intro hc; omega
  · simp only [if_neg h]
    constructor
    · intro _; omega
    · intro _; trivial

theorem check_rl_self (cfg : RLConfig) (st : RLState) (u : String) (now : ℚ) :
    (_check_rate_limit cfg st u now).2 u =
      (st u).filter (fun t => now - cfg.window < t) ++
        (if (_check_rate_limit cfg st u now).1 = true then [now] else []) := by
  rw [check_rl_eq]
  by_cases h : cfg.maxRequests ≤
      ((st u).filter (fun t => now - cfg.window < t)).length
  · simp [if_pos h, Function.update_same]
  · simp [if_neg h, Function.update_same]

theorem check_rl_other (cfg : RLConfig) (st : RLState) (u v : String)
    (now : ℚ) (hne : v ≠ u) :
    (_check_rate_limit cfg st u now).2 v = st v := by
  rw [check_rl_eq]
  by_cases h : cfg.maxRequests ≤
      ((st u).filter (fun t => now - cfg.window < t)).length
  · simp [if_pos h, Function.update_noteq hne]
  · simp [if_neg h, Function.update_noteq hne]

theorem check_rl_mem_fresh (cfg : RLConfig) (st : RLState) (u : String)
    (now : ℚ) (hw : 0 < cfg.window) :
    ∀ x ∈ (_check_rate_limit cfg st u now).2 u, now - cfg.window < x := by
  intro x hx
  rw [check_rl_self] at hx
  rcases List.mem_append.mp hx with h | h
  · have := List.mem_filter.mp h
    simpa using this.2
  · by_cases hb : (_check_rate_limit cfg st u now).1 = true
    · rw [if_pos hb] at h
      rcases List.mem_singleton.mp h with rfl
      linarith
    · rw [if_neg hb] at h
      exact absurd h (List.not_mem_nil x)

theorem check_rl_length (cfg : RLConfig) (st : RLState) (u : String)
    (now : ℚ) (hlen : (st u).length ≤ cfg.maxRequests) :
    ((_check_rate_limit cfg st u now).2 u).length ≤ cfg.maxRequests := by
  have hf : ((st u).filter (fun t => now - cfg.window < t)).length ≤
      (st u).length := List.length_filter_le _ _
  rw [check_rl_self]
  by_cases hb : (_check_rate_limit cfg st u now).1 = true
  · have hlt := (check_rl_fst cfg st u now).mp hb
    rw [if_pos hb]
    simp only [List.length_append, List.length_singleton]
    omega
  · rw [if_neg hb]
    simpa using le_trans hf hlen

theorem check_rl_sorted (cfg : RLConfig) (st : RLState) (u : String)
    (now : ℚ) (hs : List.Chain' (· ≤ ·) (st u))
    (hub : ∀ x ∈ st u, x ≤ now) :
    List.Chain' (· ≤ ·) ((_check_rate_limit cfg st u now).2 u) := by
  have hfs : List.Chain' (· ≤ ·)
      ((st u).filter (fun t => now - cfg.window < t)) :=
    hs.sublist (List.filter_sublist (st u))
  rw [check_rl_self]
  by_cases hb : (_check_rate_limit cfg st u now).1 = true
  · rw [if_pos hb]
    refine List.chain'_append.mpr ⟨hfs, List.chain'_singleton now, ?_⟩
    intro x hx y hy
    have hy' : y = now := by
      rcases List.mem_singleton.mp (List.mem_of_mem_head? hy) with rfl; rfl
    subst hy'
    exact hub x (List.mem_of_mem_filter (List.mem_of_mem_getLast? hx))
  · rw [if_neg hb]
    simpa using hfs

theorem check_rl_ub (cfg : RLConfig) (st : RLState) (u : String)
    (now : ℚ) (hub : ∀ x ∈ st u, x ≤ now) :
    ∀ x ∈ (_check_rate_limit cfg st u now).2 u, x ≤ now := by
  intro x hx
  rw [check_rl_self] at hx
  rcases List.mem_append.mp hx with h | h
  · exact hub x (List.mem_of_mem_filter h)
  · by_cases hb : (_check_rate_limit cfg st u now).1 = true
    · rw [if_pos hb] at h
      exact le_of_eq (List.mem_singleton.mp h)
    · rw [if_neg hb] at h
      exact absurd h (List.not_mem_nil x)

theorem admitTimes_length (cfg : RLConfig) (u : String) :
    ∀ (ts : List ℚ) (st : RLState),
      (admitTimes cfg st u ts).1.length = ts.length
  | [], _ => rfl
  | _ :: ts, st => by
    simp only [admitTimes, List.length_cons]
    rw [admitTimes_length cfg u ts]

theorem admitTimes_burst_aux (cfg : RLConfig) (u : String) (t0 : ℚ) :
    ∀ (ts : List ℚ) (st : RLState) (m : ℕ),
      (st u).length = m → m ≤ cfg.maxRequests →
      (∀ x ∈ st u, t0 ≤ x) →
      (∀ t ∈ ts, t0 ≤ t ∧ t < t0 + cfg.window) →
      ∀ i, i < ts.length →
        (admitTimes cfg st u ts).1[i]? =
          some (decide (m + i < cfg.maxRequests)) := by
  intro ts
  induction ts with
  | nil => intro st m _ _ _ _ i hi; exact absurd hi (by simp)
  | cons t ts ih =>
    intro st m hlen hm helem hts i hi
    have ht0 : t0 ≤ t ∧ t < t0 + cfg.window := hts t (List.mem_cons_self t ts)
    have hfilter : (st u).filter (fun x => t - cfg.window < x) = st u := by
      refine List.filter_eq_self.mpr ?_
      intro x hx
      have h1 : t0 ≤ x := helem x hx
      have h2 : t - cfg.window < t0 := by linarith [ht0.2]
      exact decide_eq_true (lt_of_lt_of_le h2 h1)
    have hfst : (_check_rate_limit cfg st u t).1 = decide (m < cfg.maxRequests) := by
      by_cases h : m < cfg.maxRequests
      · rw [decide_eq_true h]
        exact (check_rl_fst cfg st u t).mpr (by rw [hfilter, hlen]; exact h)
      · rw [decide_eq_false h]
        cases hb : (_check_rate_limit cfg st u t).1 with
        | false => rfl
        | true =>
          have hlt := (check_rl_fst cfg st u t).mp hb
          rw [hfilter, hlen] at hlt
          exact absurd hlt h
    have hself := check_rl_self cfg st u t
    rw [hfilter] at hself
    cases i with
    | zero =>
      simp only [admitTimes, List.getElem?_cons_zero, hfst, Nat.add_zero]
    | succ j =>
      simp only [admitTimes, List.getElem?_cons_succ]
      by_cases h : m < cfg.maxRequests
      · have hb : (_check_rate_limit cfg st u t).1 = true := by
          rw [hfst]; exact decide_eq_true h
        have hself' : (_check_rate_limit cfg st u t).2 u = st u ++ [t] := by
          rw [hself, hb]; simp
        have ihj := ih (_check_rate_limit cfg st u t).2 (m + 1)
          (by rw [hself', List.length_append, hlen]; rfl)
          (by omega)
          (by
            intro x hx
            rw [hself'] at hx
            rcases List.mem_append.mp hx with hx | hx
            · exact helem x hx
            · rcases List.mem_singleton.mp hx with rfl; exact ht0.1)
          (fun t' ht' => hts t' (List.mem_cons_of_mem t ht'))
          j (by simpa using hi)
        rw [ihj]
        have harith : m + 1 + j = m + (j + 1) := by omega
        rw [harith]
      · have hb : (_check_rate_limit cfg st u t).1 = false := by
          rw [hfst]; exact decide_eq_false h
        have hself' : (_check_rate_limit cfg st u t).2 u = st u := by
          rw [hself, hb]; simp
        have ihj := ih (_check_rate_limit cfg st u t).2 m
          (by rw [hself']; exact hlen)
          hm
          (by intro x hx; rw [hself'] at hx; exact helem x hx)
          (fun t' ht' => hts t' (List.mem_cons_of_mem t ht'))
          j (by simpa using hi)
        rw [ihj]
        have h1 : decide (m + j < cfg.maxRequests) = false :=
          decide_eq_false (by omega)
        have h2 : decide (m + (j + 1) < cfg.maxRequests) = false :=
          decide_eq_false (by omega)
        rw [h1, h2]

theorem runCalls_append (cfg : RLConfig) :
    ∀ (a b : List (String × ℚ)) (st : RLState),
      runCalls cfg st (a ++ b) = runCalls cfg (runCalls cfg st a) b
  | [], _, _ => rfl
  | c :: a, b, st => by
    simp only [List.cons_append, runCalls]
    exact runCalls_append cfg a b _

theorem runCalls_untouched (cfg : RLConfig) (k : String) :
    ∀ (calls : List (String × ℚ)) (st : RLState),
      (∀ c ∈ calls, c.1 ≠ k) → runCalls cfg st calls k = st k
  | [], _, _ => rfl
  | c :: calls, st, h => by
    simp only [runCalls]
    rw [runCalls_untouched cfg k calls _
      (fun c' hc' => h c' (List.mem_cons_of_mem c hc'))]
    exact check_rl_other cfg st c.1 k c.2
      (Ne.symm (h c (List.mem_cons_self c calls)))

/-- The inductive invariant of the rate-limiter map: every per-identity
list is bounded by `maxRequests`, sorted, and bounded above by the clock
value `clock` of the latest call processed so far. -/
def RLInv (cfg : RLConfig) (st : RLState) (clock : ℚ) : Prop :=
  ∀ v, (st v).length ≤ cfg.maxRequests ∧
    List.Chain' (· ≤ ·) (st v) ∧ ∀ x ∈ st v, x ≤ clock

theorem check_rl_inv (cfg : RLConfig) (st : RLState) (u : String)
    (clock now : ℚ) (h : RLInv cfg st clock) (hclock : clock ≤ now) :
    RLInv cfg (_check_rate_limit cfg st u now).2 now := by
  intro v
  by_cases hv : v = u
  · subst hv
    obtain ⟨h1, h2, h3⟩ := h v
    exact ⟨check_rl_length cfg st v now h1,
      check_rl_sorted cfg st v now h2
        (fun x hx => le_trans (h3 x hx) hclock),
      check_rl_ub cfg st v now (fun x hx => le_trans (h3 x hx) hclock)⟩
  · rw [check_rl_other cfg st u v now hv]
    obtain ⟨h1, h2, h3⟩ := h v
    exact ⟨h1, h2, fun x hx => le_trans (h3 x hx) hclock⟩

theorem runCalls_inv (cfg : RLConfig) :
    ∀ (calls : List (String × ℚ)) (st : RLState) (clock : ℚ),
      RLInv cfg st clock →
      List.Chain' (· ≤ ·) (calls.map Prod.snd) →
      (∀ t ∈ (calls.map Prod.snd).head?, clock ≤ t) →
      ∃ clock', RLInv cfg (runCalls cfg st calls) clock'
  | [], st, clock, h, _, _ => ⟨clock, h⟩
  | c :: calls, st, clock, h, hmono, hhead => by
    simp only [runCalls]
    have hc : clock ≤ c.2 := by
      apply hhead
      simp
    refine runCalls_inv cfg calls _ c.2
      (check_rl_inv cfg st c.1 clock c.2 h hc) ?_ ?_
    · exact (List.chain'_cons'.mp (by simpa using hmono)).2
    · intro t ht
      exact (List.chain'_cons'.mp (by simpa using hmono)).1 t ht

theorem emptyRL_inv (cfg : RLConfig) (clock : ℚ) :
    RLInv cfg emptyRL clock := by
  intro v
  exact ⟨by simp [emptyRL], by simp [emptyRL], by simp [emptyRL]⟩

/-! ## Claim theorems: rate limiter -/

/-- C1: on every admission check `_check_rate_limit cfg st u now`, the
stored window for `u` becomes exactly the old timestamps strictly greater
than `now - window` (all timestamps `≤ now - window` are discarded),
followed by `now` exactly when the call allows; and the call allows (is
`true`) precisely when the count of remaining timestamps is below
`maxRequests`. -/
theorem rate_limit_admit_step (cfg : RLConfig) (st : RLState) (u : String)
    (now : ℚ) :
    ((_check_rate_limit cfg st u now).1 = true ↔
      ((st u).filter (fun t => now - cfg.window < t)).length <
        cfg.maxRequests) ∧
    ((_check_rate_limit cfg st u now).2 u =
      (st u).filter (fun t => now - cfg.window < t) ++
        (if (_check_rate_limit cfg st u now).1 = true then [now] else [])) ∧
    (∀ t : ℚ, t ∈ st u → t ≤ now - cfg.window → 0 < cfg.window →
      t ∉ (_check_rate_limit cfg st u now).2 u) := by
  refine ⟨check_rl_fst cfg st u now, check_rl_self cfg st u now, ?_⟩
  intro t _ hle hw hmem
  exact absurd (check_rl_mem_fresh cfg st u now hw t hmem) (not_lt.mpr hle)

/-- Witness for C1 at a concrete state: with the default configuration
(window 60, max 5), a check at time 10 over the stored window
`[-100, 10]` discards the stale timestamp `-100` and allows. -/
theorem rate_limit_admit_step_witness :
    (-100 : ℚ) ∉
      (_check_rate_limit defaultRLConfig (fun _ => [-100, 10]) "u1" 10).2 "u1" ∧
    (_check_rate_limit defaultRLConfig (fun _ => [-100, 10]) "u1" 10).1 = true := by
  have h := rate_limit_admit_step defaultRLConfig (fun _ => [-100, 10]) "u1" 10
  exact ⟨h.2.2 (-100) (by norm_num) (by norm_num [defaultRLConfig])
      (by norm_num [defaultRLConfig]),
    h.1.mpr (by norm_num [defaultRLConfig, List.filter])⟩

/-- C3: for a fresh identity, any burst of admission checks whose clock
values all lie inside one `window`-length interval is answered `true` for
exactly the first `maxRequests` calls and `false` from then on; in
particular five calls within one second under the default configuration
(max 5, window 60) all succeed and the sixth is denied. -/
theorem rate_limit_window_burst (cfg : RLConfig) (u : String) (t0 : ℚ)
    (ts : List ℚ) (hts : ∀ t ∈ ts, t0 ≤ t ∧ t < t0 + cfg.window) :
    ∀ i, i < ts.length →
      (admitTimes cfg emptyRL u ts).1[i]? =
        some (decide (i < cfg.maxRequests)) := by
  intro i hi
  have h := admitTimes_burst_aux cfg u t0 ts emptyRL 0 rfl
    (Nat.zero_le _) (fun x hx => absurd hx (List.not_mem_nil x)) hts i hi
  simpa using h

/-- Witness for C3: six calls for `"u1"` at times 0, 1/5, 2/5, 3/5, 4/5
and 1 (all within one second) under the default configuration: the first
five answers are `true`, the sixth is `false`. -/
theorem rate_limit_window_burst_witness :
    (admitTimes defaultRLConfig emptyRL "u1"
      [0, 1/5, 2/5, 3/5, 4/5, 1]).1[0]? = some true ∧
    (admitTimes defaultRLConfig emptyRL "u1"
      [0, 1/5, 2/5, 3/5, 4/5, 1]).1[1]? = some true ∧
    (admitTimes defaultRLConfig emptyRL "u1"
      [0, 1/5, 2/5, 3/5, 4/5, 1]).1[2]? = some true ∧
    (admitTimes defaultRLConfig emptyRL "u1"
      [0, 1/5, 2/5, 3/5, 4/5, 1]).1[3]? = some true ∧
    (admitTimes defaultRLConfig emptyRL "u1"
      [0, 1/5, 2/5, 3/5, 4/5, 1]).1[4]? = some true ∧
    (admitTimes defaultRLConfig emptyRL "u1"
      [0, 1/5, 2/5, 3/5, 4/5, 1]).1[5]? = some false := by
  have h := rate_limit_window_burst defaultRLConfig "u1" 0
    [0, 1/5, 2/5, 3/5, 4/5, 1] (by norm_num [defaultRLConfig])
  exact ⟨(h 0 (by decide)).trans (by decide), (h 1 (by decide)).trans (by decide),
    (h 2 (by decide)).trans (by decide), (h 3 (by decide)).trans (by decide),
    (h 4 (by decide)).trans (by decide), (h 5 (by decide)).trans (by decide)⟩

/-- C10 counterexample: the freshness bound does not hold against the most
recent call overall, because pruning is lazy and per identity. After the
calls `("A", 0)` then `("B", 100)` (non-decreasing clocks, default
configuration), identity A's list still holds the entry 0, which is not
strictly greater than the most recent call's now minus the window
(`100 - 60 = 40`). -/
theorem rate_limiter_stale_entry_counterexample :
    runCalls defaultRLConfig emptyRL [("A", 0), ("B", 100)] "A" = [0] ∧
    ¬ ((100 : ℚ) - defaultRLConfig.window < 0) := by
  constructor
  · norm_num [runCalls, _check_rate_limit, emptyRL, defaultRLConfig,
      Function.update, List.filter]
    decide
  · norm_num [defaultRLConfig]

/-- C10 (amended): after any sequence of admission checks with
non-decreasing clock values and a positive window, starting from the
empty map, every per-identity list holds at most `maxRequests` entries in
non-decreasing order; each entry is strictly greater than the now of the
most recent call *for that identity* minus the window; and identities
never checked have no list entries. -/
theorem rate_limiter_window_invariant (cfg : RLConfig)
    (calls : List (String × ℚ)) (hw : 0 < cfg.window)
    (hmono : List.Chain' (· ≤ ·) (calls.map Prod.snd)) (k : String) :
    (runCalls cfg emptyRL calls k).length ≤ cfg.maxRequests ∧
    List.Chain' (· ≤ ·) (runCalls cfg emptyRL calls k) ∧
    (∀ pre t suf, calls = pre ++ (k, t) :: suf → (∀ c ∈ suf, c.1 ≠ k) →
      ∀ x ∈ runCalls cfg emptyRL calls k, t - cfg.window < x) ∧
    ((∀ c ∈ calls, c.1 ≠ k) → runCalls cfg emptyRL calls k = []) := by
  obtain ⟨clock', hinv⟩ := runCalls_inv cfg calls emptyRL
    (((calls.map Prod.snd).head?).getD 0 - 1)
    (emptyRL_inv cfg _) hmono
    (by
      intro t ht
      rw [ht]
      simp only [Option.getD_some]
      linarith)
  refine ⟨(hinv k).1, (hinv k).2.1, ?_, ?_⟩
  · intro pre t suf hcalls hsuf x hx
    rw [hcalls, runCalls_append] at hx
    simp only [runCalls] at hx
    rw [runCalls_untouched cfg k suf _ hsuf] at hx
    exact check_rl_mem_fresh cfg (runCalls cfg emptyRL pre) k t hw x hx
  · intro hnone
    rw [runCalls_untouched cfg k calls emptyRL hnone]
    rfl

/-- Witness for C10 (amended) at the counterexample's own call sequence:
identity A's list obeys the per-identity bound (its last call was at time
0, and its entry 0 is greater than `0 - 60`), and an identity that was
never checked has no entries. -/
theorem rate_limiter_window_invariant_witness :
    (runCalls defaultRLConfig emptyRL [("A", 0), ("B", 100)] "A").length ≤
      defaultRLConfig.maxRequests ∧
    runCalls defaultRLConfig emptyRL [("A", 0), ("B", 100)] "C" = [] := by
  have hA := rate_limiter_window_invariant defaultRLConfig
    [("A", 0), ("B", 100)] (by norm_num [defaultRLConfig])
    (by simp [List.chain'_cons]) "A"
  have hC := rate_limiter_window_invariant defaultRLConfig
    [("A", 0), ("B", 100)] (by norm_num [defaultRLConfig])
    (by simp [List.chain'_cons]) "C"
  exact ⟨hA.1, hC.2.2.2 (by decide)⟩

/-! ## Helper lemmas: tracing resolver -/

theorem firstUsable_cons_usable (o : StratOutcome) (os : List StratOutcome)
    (d : TraceDict) (h : usable o = some d) :
    firstUsable (o :: os) = .result d := by
  simp only [firstUsable, h]

theorem firstUsable_cons_unusable (o : StratOutcome) (os : List StratOutcome)
    (h : usable o = none) :
    firstUsable (o :: os) = firstUsable os := by
  simp only [firstUsable, h]

theorem usable_retDict_ne_nil (d : TraceDict) (h : d ≠ []) :
    usable (.retDict d) = some d := by
  simp only [usable, List.isEmpty_iff]
  rw [if_neg h]

theorem truecaller_ne_nil (s : String) : _trace_truecaller_info s ≠ [] := by
  unfold _trace_truecaller_info
  split
  · exact List.cons_ne_nil _ _
  · split
    · exact List.cons_ne_nil _ _
    · split
      · exact List.cons_ne_nil _ _
      · exact List.cons_ne_nil _ _

theorem truecaller_lookup_country (s : String) :
    ((_trace_truecaller_info s).lookup "Country").isSome = true := by
  unfold _trace_truecaller_info
  split
  · rfl
  · split
    · rfl
    · split
      · rfl
      · rfl

theorem truecaller_lookup_network (s : String) :
    ((_trace_truecaller_info s).lookup "Network Type").isSome = true := by
  unfold _trace_truecaller_info
  split
  · rfl
  · split
    · rfl
    · split
      · rfl
      · rfl

theorem truecaller_lookup_region (s : String)
    (h : (pyStartsWith s "+91" ||
      (decide (s.length = 10) &&
        (pyStartsWith s "6" || pyStartsWith s "7" ||
         pyStartsWith s "8" || pyStartsWith s "9"))) = true) :
    ((_trace_truecaller_info s).lookup "Region").isSome = true := by
  unfold _trace_truecaller_info
  rw [if_pos h]
  rfl

/-! ## Claim theorems: tracing resolver -/

/-- C2: the resolver's strategy loop is first-success-wins over the fixed
order (remote, heuristic, basic). It returns the dict of the first
outcome that is usable (a non-empty dict), ignoring everything after it;
in particular a usable remote outcome is returned as is; and the loop
answers `exhausted` exactly when no outcome in the list is usable. -/
theorem tracing_first_success_wins :
    (∀ (pre : List StratOutcome) (o : StratOutcome)
        (post : List StratOutcome) (d : TraceDict),
      (∀ o' ∈ pre, usable o' = none) → usable o = some d →
      firstUsable (pre ++ o :: post) = .result d) ∧
    (∀ (remote : StratOutcome) (phone : String) (d : TraceDict),
      remote = .retDict d → d ≠ [] →
      trace_phone_number remote phone = .result d) ∧
    (∀ os : List StratOutcome,
      firstUsable os = .exhausted ↔ ∀ o ∈ os, usable o = none) := by
  refine ⟨?_, ?_, ?_⟩
  · intro pre
    induction pre with
    | nil =>
      intro o post d _ h
      exact firstUsable_cons_usable o post d h
    | cons p pre ih =>
      intro o post d hpre h
      rw [List.cons_append,
        firstUsable_cons_unusable p _ (hpre p (List.mem_cons_self p pre))]
      exact ih o post d (fun o' ho' => hpre o' (List.mem_cons_of_mem p ho')) h
  · intro remote phone d hr hd
    subst hr
    unfold trace_phone_number
    exact firstUsable_cons_usable _ _ d (usable_retDict_ne_nil d hd)
  · intro os
    induction os with
    | nil => simp [firstUsable]
    | cons o os ih =>
      constructor
      · intro h o' ho'
        cases hu : usable o with
        | none =>
          rw [firstUsable_cons_unusable o os hu] at h
          rcases List.mem_cons.mp ho' with rfl | ho'
          · exact hu
          · exact ih.mp h o' ho'
        | some d =>
          rw [firstUsable_cons_usable o os d hu] at h
          exact absurd h (by simp)
      · intro h
        rw [firstUsable_cons_unusable o os (h o (List.mem_cons_self o os))]
        exact ih.mpr (fun o' ho' => h o' (List.mem_cons_of_mem o ho'))

/-- Witness for C2: a usable remote outcome is returned unchanged by the
resolver, even though both local strategies would also succeed on this
number. -/
theorem tracing_first_success_wins_witness :
    trace_phone_number (.retDict [("Owner Name", "X")]) "9876543210" =
      .result [("Owner Name", "X")] :=
  tracing_first_success_wins.2.1 (.retDict [("Owner Name", "X")])
    "9876543210" [("Owner Name", "X")] rfl (by decide)

/-- C7: whenever the remote strategy's outcome is unusable (it raised,
returned the non-dict status-code string, or an empty dict), the resolver
returns the heuristic strategy's dict and never `exhausted`; the
heuristic `_trace_truecaller_info` is total, always yields a non-empty
dict with a country and a network type, and yields a region bucket for
Indian-shaped numbers. -/
theorem heuristic_fallback_never_exhausted (remote : StratOutcome)
    (phone : String) (hfail : usable remote = none) :
    trace_phone_number remote phone =
      .result (_trace_truecaller_info (cleanPhone phone)) ∧
    trace_phone_number remote phone ≠ .exhausted ∧
    (∀ s : String, _trace_truecaller_info s ≠ []) ∧
    (∀ s : String, ((_trace_truecaller_info s).lookup "Country").isSome = true) ∧
    (∀ s : String,
      ((_trace_truecaller_info s).lookup "Network Type").isSome = true) ∧
    (∀ s : String,
      (pyStartsWith s "+91" ||
        (decide (s.length = 10) &&
          (pyStartsWith s "6" || pyStartsWith s "7" ||
           pyStartsWith s "8" || pyStartsWith s "9"))) = true →
      ((_trace_truecaller_info s).lookup "Region").isSome = true) := by
  have hres : trace_phone_number remote phone =
      .result (_trace_truecaller_info (cleanPhone phone)) := by
    unfold trace_phone_number
    rw [firstUsable_cons_unusable remote _ hfail]
    exact firstUsable_cons_usable _ _ _
      (usable_retDict_ne_nil _ (truecaller_ne_nil (cleanPhone phone)))
  refine ⟨hres, ?_, truecaller_ne_nil, truecaller_lookup_country,
    truecaller_lookup_network, truecaller_lookup_region⟩
  rw [hres]
  intro h
  exact absurd h (by simp)

/-- Witness for C7: with the remote strategy raising, tracing the
spec's example number `"+911234567890"` returns the heuristic dict, not
`exhausted`. -/
theorem heuristic_fallback_never_exhausted_witness :
    trace_phone_number .raises "+911234567890" =
      .result (_trace_truecaller_info (cleanPhone "+911234567890")) ∧
    trace_phone_number .raises "+911234567890" ≠ .exhausted := by
  have h := heuristic_fallback_never_exhausted .raises "+911234567890" rfl
  exact ⟨h.1, h.2.1⟩

/-! ## Helper lemmas: phone validator -/

theorem isDigits_iff (n : ℕ) (cs : List Char) :
    isDigits n cs = true ↔
      (∀ c ∈ cs, c.isDigit = true) ∧ cs.length = n := by
  simp [isDigits, List.all_eq_true]

theorem isIntlFormat_iff (cs : List Char) :
    isIntlFormat cs = true ↔
      ∃ ds : List Char, cs = '+' :: ds ∧ (∀ c ∈ ds, c.isDigit = true) ∧
        10 ≤ ds.length ∧ ds.length ≤ 15 := by
  cases cs with
  | nil => simp [isIntlFormat]
  | cons c rest =>
    simp [isIntlFormat, List.all_eq_true, List.cons.injEq, and_assoc]

theorem isIndiaFormat_iff (cs : List Char) :
    isIndiaFormat cs = true ↔
      ∃ ds : List Char, cs = '+' :: '9' :: '1' :: ds ∧
        (∀ c ∈ ds, c.isDigit = true) ∧ ds.length = 10 := by
  match cs with
  | [] => simp [isIndiaFormat]
  | [a] => simp [isIndiaFormat]
  | [a, b] => simp [isIndiaFormat]
  | a :: b :: c :: rest =>
    simp [isIndiaFormat, isDigits_iff, List.cons.injEq, and_assoc]

theorem isUSFormat_iff (cs : List Char) :
    isUSFormat cs = true ↔
      ∃ ds : List Char, cs = '+' :: '1' :: ds ∧
        (∀ c ∈ ds, c.isDigit = true) ∧ ds.length = 10 := by
  match cs with
  | [] => simp [isUSFormat]
  | [a] => simp [isUSFormat]
  | a :: b :: rest =>
    simp [isUSFormat, isDigits_iff, List.cons.injEq, and_assoc]

/-! ## Claim theorems: phone validator and local strategies -/

/-- C4 counterexample: the source's cleaning step keeps every `+` sign,
not only a leading one, so on `"12+34567890"` (whose spec-normalised form
`"1234567890"` is a bare 10-digit match) the validator answers `false`
while the claimed normalise-then-match condition holds. -/
theorem phone_validator_leading_plus_counterexample :
    validate_phone_number "12+34567890" = false ∧
    specPhoneAccept "12+34567890" = true ∧
    specNormalizePhone "12+34567890" = "1234567890" := by
  refine ⟨by decide, by decide, by decide⟩

/-- C4 (amended): the validator accepts exactly the strings whose
normalisation by stripping all characters except digits and `+` signs
(every `+` kept, wherever it occurs) matches one of the five patterns:
`+` then 10–15 digits, exactly 10 digits, exactly 11 digits, `+91` then
10 digits, or `+1` then 10 digits; it returns only that boolean. -/
theorem phone_validator_amended (s : String) :
    validate_phone_number s = true ↔
      ((∃ ds : List Char, (cleanPhone s).toList = '+' :: ds ∧
          (∀ c ∈ ds, c.isDigit = true) ∧ 10 ≤ ds.length ∧ ds.length ≤ 15) ∨
        ((∀ c ∈ (cleanPhone s).toList, c.isDigit = true) ∧
          ((cleanPhone s).toList.length = 10 ∨
            (cleanPhone s).toList.length = 11)) ∨
        (∃ ds : List Char, (cleanPhone s).toList = '+' :: '9' :: '1' :: ds ∧
          (∀ c ∈ ds, c.isDigit = true) ∧ ds.length = 10) ∨
        (∃ ds : List Char, (cleanPhone s).toList = '+' :: '1' :: ds ∧
          (∀ c ∈ ds, c.isDigit = true) ∧ ds.length = 10)) := by
  unfold validate_phone_number
  by_cases he : s.toList.isEmpty = true
  · rw [if_pos he]
    have hs : s.toList = [] := by
      cases hl : s.toList with
      | nil => rfl
      | cons a l => rw [hl] at he; exact absurd he (by simp)
    have hc : (cleanPhone s).toList = [] := by
      have hrfl : (cleanPhone s).toList =
          s.toList.filter (fun c => c.isDigit || c = '+') := rfl
      rw [hrfl, hs]
      rfl
    rw [hc]
    simp
  · rw [if_neg he]
    simp only [Bool.or_eq_true]
    rw [isIntlFormat_iff, isDigits_iff, isDigits_iff, isIndiaFormat_iff,
      isUSFormat_iff]
    constructor
    · rintro ((((h | h) | h) | h) | h)
      · exact Or.inl h
      · exact Or.inr (Or.inl ⟨h.1, Or.inl h.2⟩)
      · exact Or.inr (Or.inl ⟨h.1, Or.inr h.2⟩)
      · exact Or.inr (Or.inr (Or.inl h))
      · exact Or.inr (Or.inr (Or.inr h))
    · rintro (h | ⟨hall, h10 | h11⟩ | h | h)
      · exact Or.inl (Or.inl (Or.inl (Or.inl h)))
      · exact Or.inl (Or.inl (Or.inl (Or.inr ⟨hall, h10⟩)))
      · exact Or.inl (Or.inl (Or.inr ⟨hall, h11⟩))
      · exact Or.inl (Or.inr h)
      · exact Or.inr h

/-- Witness for C4 (amended): the validator accepts `"+911234567890"`,
whose cleaned form is `+91` followed by 10 digits. -/
theorem phone_validator_amended_witness :
    validate_phone_number "+911234567890" = true :=
  (phone_validator_amended "+911234567890").mpr
    (Or.inr (Or.inr (Or.inl ⟨"1234567890".toList, by decide, by decide,
      by decide⟩)))

/-- C8 counterexample: on the normalised number `"9999999999"` the
basic-format strategy labels the Type field `"Regular Number"`, not
`"Possibly Fake/Test Number"`: the code's repeated-digit suffix list is
only `0000`, `1111`, `2222`, which does not cover a `9999` tail. -/
theorem basic_info_repeated_nines_counterexample :
    (_trace_basic_info "9999999999").lookup "Type" = some "Regular Number" ∧
    ¬ ((_trace_basic_info "9999999999").lookup "Type" =
        some "Possibly Fake/Test Number") := by
  refine ⟨by decide, by decide⟩

/-- C8 (amended): the basic-format strategy sets the Type field to
`"Possibly Fake/Test Number"` exactly for numbers ending in one of the
repeated-digit suffixes `0000`, `1111`, `2222` (so `"1234560000"` is
flagged while `"9999999999"` gets `"Regular Number"`). -/
theorem basic_info_fake_flag_iff (s : String) :
    ((_trace_basic_info s).lookup "Type" = some "Possibly Fake/Test Number") ↔
      (pyEndsWith s "0000" || pyEndsWith s "1111" ||
        pyEndsWith s "2222") = true := by
  have hl : (_trace_basic_info s).lookup "Type" =
      some (if pyEndsWith s "0000" || pyEndsWith s "1111" ||
              pyEndsWith s "2222" then
              "Possibly Fake/Test Number"
            else "Regular Number") := rfl
  rw [hl]
  by_cases hc : (pyEndsWith s "0000" || pyEndsWith s "1111" ||
      pyEndsWith s "2222") = true
  · rw [if_pos hc]
    simp [hc]
  · rw [if_neg hc]
    simp only [Option.some.injEq]
    constructor
    · intro h
      exact absurd h (by decide)
    · intro h
      exact absurd h hc

/-- Witness for C8 (amended): `"1234560000"` (suffix `0000`) is flagged
as possibly fake. -/
theorem basic_info_fake_flag_iff_witness :
    (_trace_basic_info "1234560000").lookup "Type" =
      some "Possibly Fake/Test Number" :=
  (basic_info_fake_flag_iff "1234560000").mpr (by decide)

/-! ## Helper lemmas: vehicle grammar -/

theorem matchVehiclePattern_mono {dLo dHi sLo sHi dLo' dHi' sLo' sHi' : ℕ}
    (h1 : dLo' ≤ dLo) (h2 : dHi ≤ dHi') (h3 : sLo' ≤ sLo) (h4 : sHi ≤ sHi')
    (s : String) (g : VehicleGroups)
    (h : matchVehiclePattern dLo dHi sLo sHi s = some g) :
    matchVehiclePattern dLo' dHi' sLo' sHi' s = some g := by
  unfold matchVehiclePattern at h ⊢
  simp only [String.toList] at h ⊢
  cases hr : splitRuns s.data with
  | none => rw [hr] at h; exact absurd h (by simp)
  | some q =>
    obtain ⟨l1, d1, l2, d2⟩ := q
    rw [hr] at h
    simp only [Option.some_bind] at h ⊢
    by_cases hc : l1.length = 2 ∧ (dLo ≤ d1.length ∧ d1.length ≤ dHi) ∧
        (1 ≤ l2.length ∧ l2.length ≤ 2) ∧ (sLo ≤ d2.length ∧ d2.length ≤ sHi)
    · rw [if_pos hc] at h
      rw [if_pos ⟨hc.1, ⟨le_trans h1 hc.2.1.1, le_trans hc.2.1.2 h2⟩,
        hc.2.2.1,
        ⟨le_trans h3 hc.2.2.2.1, le_trans hc.2.2.2.2 h4⟩⟩]
      exact h
    · rw [if_neg hc] at h
      exact absurd h (by simp)

theorem matchP1_sub_P2 (v : String) (g : VehicleGroups)
    (h : matchP1 v = some g) : matchP2 v = some g :=
  matchVehiclePattern_mono (le_refl 2) (le_refl 2) (by omega) (le_refl 4)
    v g h

theorem matchP2_sub_P3 (v : String) (g : VehicleGroups)
    (h : matchP2 v = some g) : matchP3 v = some g :=
  matchVehiclePattern_mono (by omega) (le_refl 2) (le_refl 1) (le_refl 4)
    v g h

theorem parse_of_P1 (v : String) (g : VehicleGroups)
    (h : matchP1 v = some g) :
    _parse_vehicle_number v = some (mkParsed v g) := by
  unfold _parse_vehicle_number
  rw [h]

theorem parse_of_P2 (v : String) (g : VehicleGroups)
    (h1 : matchP1 v = none) (h2 : matchP2 v = some g) :
    _parse_vehicle_number v = some (mkParsed v g) := by
  unfold _parse_vehicle_number
  rw [h1, h2]

theorem parse_of_P3 (v : String) (g : VehicleGroups)
    (h1 : matchP1 v = none) (h2 : matchP2 v = none)
    (h3 : matchP3 v = some g) :
    _parse_vehicle_number v = some (mkParsed v g) := by
  unfold _parse_vehicle_number
  rw [h1, h2, h3]

theorem parse_of_none (v : String)
    (h1 : matchP1 v = none) (h2 : matchP2 v = none) (h3 : matchP3 v = none) :
    _parse_vehicle_number v = none := by
  unfold _parse_vehicle_number
  rw [h1, h2, h3]

theorem parse_shape (v : String) (p : ParsedVehicle)
    (h : _parse_vehicle_number v = some p) : ∃ g, p = mkParsed v g := by
  unfold _parse_vehicle_number at h
  cases h1 : matchP1 v with
  | some g => rw [h1] at h; exact ⟨g, (Option.some.inj h).symm⟩
  | none =>
    rw [h1] at h
    cases h2 : matchP2 v with
    | some g => rw [h2] at h; exact ⟨g, (Option.some.inj h).symm⟩
    | none =>
      rw [h2] at h
      cases h3 : matchP3 v with
      | some g => rw [h3] at h; exact ⟨g, (Option.some.inj h).symm⟩
      | none => rw [h3] at h; exact absurd h (by simp)

theorem parse_isSome_iff_P3 (v : String) :
    (_parse_vehicle_number v).isSome = (matchP3 v).isSome := by
  cases h3 : matchP3 v with
  | none =>
    have h2 : matchP2 v = none := by
      cases h2 : matchP2 v with
      | none => rfl
      | some g => exact absurd (matchP2_sub_P3 v g h2) (by rw [h3]; simp)
    have h1 : matchP1 v = none := by
      cases h1 : matchP1 v with
      | none => rfl
      | some g =>
        exact absurd (matchP2_sub_P3 v g (matchP1_sub_P2 v g h1))
          (by rw [h3]; simp)
    rw [parse_of_none v h1 h2 h3]
    rfl
  | some g =>
    cases h1 : matchP1 v with
    | some g1 => rw [parse_of_P1 v g1 h1]; rfl
    | none =>
      cases h2 : matchP2 v with
      | some g2 => rw [parse_of_P2 v g2 h1 h2]; rfl
      | none => rw [parse_of_P3 v g h1 h2 h3]; rfl

/-! ## Claim theorems: vehicle parsing and lookup -/

/-- C5: the parser tries its three patterns in the fixed order
(1: district exactly 2 digits and serial exactly 4; 2: serial 1–4
digits; 3: district 1–2 digits) with first-match-wins, and every string
matching pattern 1 also matches pattern 2 yet is parsed via pattern 1. -/
theorem vehicle_pattern_priority :
    (∀ (v : String) (g : VehicleGroups), matchP1 v = some g →
      matchP2 v = some g) ∧
    (∀ (v : String) (g : VehicleGroups), matchP1 v = some g →
      _parse_vehicle_number v = some (mkParsed v g)) ∧
    (∀ (v : String) (g : VehicleGroups), matchP1 v = none →
      matchP2 v = some g → _parse_vehicle_number v = some (mkParsed v g)) ∧
    (∀ (v : String) (g : VehicleGroups), matchP1 v = none → matchP2 v = none →
      matchP3 v = some g → _parse_vehicle_number v = some (mkParsed v g)) ∧
    (∀ v : String, matchP1 v = none → matchP2 v = none → matchP3 v = none →
      _parse_vehicle_number v = none) :=
  ⟨matchP1_sub_P2, parse_of_P1, parse_of_P2, parse_of_P3, parse_of_none⟩

/-- Witness for C5: `"MH01AB1234"` matches both pattern 1 and pattern 2
(with the same groups) and is parsed via pattern 1. -/
theorem vehicle_pattern_priority_witness :
    matchP2 "MH01AB1234" = some ⟨"MH", "01", "AB", "1234"⟩ ∧
    _parse_vehicle_number "MH01AB1234" =
      some (mkParsed "MH01AB1234" ⟨"MH", "01", "AB", "1234"⟩) :=
  ⟨vehicle_pattern_priority.1 "MH01AB1234" ⟨"MH", "01", "AB", "1234"⟩
      (by decide),
    vehicle_pattern_priority.2.1 "MH01AB1234" ⟨"MH", "01", "AB", "1234"⟩
      (by decide)⟩

/-- C6: every successfully parsed vehicle carries the office (RTO) code
`state_code ++ zfill 2 district_code`, and the details dict resolves the
state name and office name through the reference tables with the
`"Unknown State"` / `"Unknown RTO"` defaults, so unmapped keys never fail
the lookup. -/
theorem vehicle_details_lookup (v : String) (p : ParsedVehicle)
    (h : _parse_vehicle_number v = some p) :
    p.rto_code = p.state_code ++ zfill 2 p.district_code ∧
    (_get_vehicle_details p).lookup "State" =
      some ((state_codes.lookup p.state_code).getD "Unknown State") ∧
    (_get_vehicle_details p).lookup "RTO Office" =
      some ((rto_offices.lookup p.rto_code).getD "Unknown RTO") ∧
    (_get_vehicle_details p).lookup "RTO Code" = some p.rto_code := by
  obtain ⟨g, rfl⟩ := parse_shape v p h
  exact ⟨rfl, rfl, rfl, rfl⟩

/-- Witness for C6: the unmapped string `"XY99ZZ9999"` parses, and its
details resolve to the sentinel literals `"Unknown State"` and
`"Unknown RTO"`. -/
theorem vehicle_details_lookup_witness :
    (_get_vehicle_details
      ⟨"XY99ZZ9999", "XY", "99", "ZZ", "9999", "XY99"⟩).lookup "State" =
        some "Unknown State" ∧
    (_get_vehicle_details
      ⟨"XY99ZZ9999", "XY", "99", "ZZ", "9999", "XY99"⟩).lookup "RTO Office" =
        some "Unknown RTO" := by
  have h := vehicle_details_lookup "XY99ZZ9999"
    ⟨"XY99ZZ9999", "XY", "99", "ZZ", "9999", "XY99"⟩ (by decide)
  exact ⟨h.2.1.trans (by decide), h.2.2.1.trans (by decide)⟩

/-- C9: the vehicle validator and the vehicle parser accept exactly the
same language: validation succeeds iff parsing the same normalisation
succeeds, and a validated string never reaches the invalid-format branch
of `lookup_vehicle_info`. -/
theorem validator_parser_equivalence (s : String) :
    (validate_vehicle_number s = true ↔
      (_parse_vehicle_number (normalizeVehicle s)).isSome = true) ∧
    (validate_vehicle_number s = true →
      lookup_vehicle_info s ≠ .invalidFormat) := by
  have hmain : validate_vehicle_number s = true ↔
      (_parse_vehicle_number (normalizeVehicle s)).isSome = true := by
    unfold validate_vehicle_number
    rw [parse_isSome_iff_P3]
    by_cases he : s.toList.isEmpty = true
    · rw [if_pos he]
      have hs : s.toList = [] := by
        cases hl : s.toList with
        | nil => rfl
        | cons a l => rw [hl] at he; exact absurd he (by simp)
      have hn : (normalizeVehicle s).toList = [] := by
        have hrfl : (normalizeVehicle s).toList =
            (s.toList.map Char.toUpper).filter
              (fun c => ¬(c = ' ' ∨ c = '-')) := rfl
        rw [hrfl, hs]
        rfl
      have h3 : matchP3 (normalizeVehicle s) = none := by
        unfold matchP3 matchVehiclePattern splitRuns
        rw [hn]
        rfl
      rw [h3]
      simp
    · rw [if_neg he]
      simp only [Bool.or_eq_true]
      constructor
      · rintro (h2 | h3)
        · obtain ⟨g, hg⟩ := Option.isSome_iff_exists.mp h2
          rw [matchP2_sub_P3 (normalizeVehicle s) g hg]
          rfl
        · exact h3
      · intro h3
        exact Or.inr h3
  refine ⟨hmain, ?_⟩
  intro hv
  have hp := hmain.mp hv
  cases hq : _parse_vehicle_number (normalizeVehicle s) with
  | none => rw [hq] at hp; exact absurd hp (by simp)
  | some p =>
    intro hcontra
    simp only [lookup_vehicle_info] at hcontra
    rw [hq] at hcontra
    simp at hcontra

/-- Witness for C9: `"MH 01-AB-1234"` passes validation and its lookup is
not the invalid-format failure. -/
theorem validator_parser_equivalence_witness :
    validate_vehicle_number "MH 01-AB-1234" = true ∧
    lookup_vehicle_info "MH 01-AB-1234" ≠ .invalidFormat := by
  have h := validator_parser_equivalence "MH 01-AB-1234"
  exact ⟨by decide, h.2 (by decide)⟩

end OSINET
